import Mathlib

/-!
Verification of the agent deployment pipeline
(`src/notebooks/05_deploy_agent/deploy_agent.py`).

The notebook is a sequence of cells executed in order; an uncaught
exception in a cell aborts the whole run (no later cell executes).
We embed the pipeline as a pure function from a `DeployAgentConfig`
and a `World` (the results that the external platform returns to each
call the notebook makes) to a trace of externally visible calls
(`Event` list) together with the final outcome (`Except PyErr Unit`,
`error` meaning the run aborted with an uncaught exception).

Library functions imported by the notebook from `telco_support_agent`
(`get_latest_model_version`, `cleanup_old_deployments`) are not part of
this repository snapshot; they are modelled from the specification and
marked as such in their doc comments.
-/

namespace DeployPipeline

/-- Python exceptions relevant to the notebook, by class. -/
inductive PyErr where
  | valueError (msg : String)
  | runtimeError (msg : String)
  | agentDeploymentError (msg : String)
  | agentMonitoringError (msg : String)
  | otherError (msg : String)
deriving DecidableEq, Repr

/-- One role/content entry of a model response `output` list. -/
structure OutputItem where
  role : String
  content : String
deriving DecidableEq, Repr

/-- A model response value: `none` models Python `None` (falsy), `some d`
models a dict as an association list from keys to lists of entries. -/
abbrev ResponseDict := List (String × List OutputItem)

abbrev Response := Option ResponseDict

/-- A loaded pyfunc model handle (opaque in the notebook). -/
structure Model where
  uri : String
deriving DecidableEq, Repr

/-- One canary test query from the validation cell. -/
structure TestQuery where
  input : List OutputItem
  custom_inputs : List (String × String)
deriving DecidableEq, Repr

/-- One permission grant entry of the config. -/
structure Permission where
  users : List String
  permission_level : String
deriving DecidableEq, Repr

/-- Modelled from the spec: `DeployAgentConfig` (the class lives in
`telco_support_agent.config`, outside this snapshot).  Field list follows
the configuration surface of the spec and the widgets declared in the
notebook; `model_version` is optional, resolving to latest when unset. -/
structure DeployAgentConfig where
  env : String
  git_commit : String
  uc_catalog : String
  agent_schema : String
  model_name : String
  model_version : Option Nat
  endpoint_name : String
  scale_to_zero_enabled : Bool
  workload_size : String
  wait_for_ready : Bool
  permissions : List Permission
  instructions : Option String
  monitoring_enabled : Bool
  monitoring_replace_existing : Bool
  monitoring_fail_on_error : Bool
  cleanup_old_versions : Bool
  keep_previous_count : Nat
deriving DecidableEq, Repr

/-- Modelled from the spec: the full model identifier is
catalog.schema.model. -/
def DeployAgentConfig.full_model_name (c : DeployAgentConfig) : String :=
  c.uc_catalog ++ "." ++ c.agent_schema ++ "." ++ c.model_name

/-- Modelled from the spec: `get_latest_model_version` from
`telco_support_agent.ops.registry` (not in this snapshot) queries the
model registry for the highest version number of the model, returning
`none` when the registry has no versions.  The registry's version list
is passed explicitly. -/
def get_latest_model_version : List Nat → Option Nat
  | [] => none
  | v :: rest =>
    match get_latest_model_version rest with
    | none => some v
    | some m => some (max v m)

/-- The model-version resolution cell (notebook lines 74–81): use
`config.model_version` when set, otherwise the latest registry version,
raising `ValueError` when the registry has no versions. -/
def resolveModelVersion (cfg : DeployAgentConfig) (registryVersions : List Nat) :
    Except PyErr Nat :=
  match cfg.model_version with
  | some v => Except.ok v
  | none =>
    match get_latest_model_version registryVersions with
    | some v => Except.ok v
    | none =>
      Except.error (PyErr.valueError ("No versions found for model: " ++ cfg.full_model_name))

/-- The response check of the validation cell (line 111):
`response and "output" in response and len(response["output"]) > 0`. -/
def responseValid : Response → Bool
  | none => false
  | some d =>
    !d.isEmpty &&
      (match d.lookup "output" with
       | some out => !out.isEmpty
       | none => false)

/-- The canary prediction loop of the validation cell: each query is
predicted in order; a raised prediction or an invalid response raises
`ValueError` and stops the loop. -/
def checkPredictions (predict : TestQuery → Except PyErr Response) :
    List TestQuery → Except PyErr Unit
  | [] => Except.ok ()
  | q :: rest =>
    match predict q with
    | Except.error e => Except.error e
    | Except.ok r =>
      if responseValid r then checkPredictions predict rest
      else Except.error (PyErr.valueError "Test failed: Model returned empty or invalid response")

/-- Body of the validation cell's `try` block: load the model, then run
every canary query. -/
def runValidationBody (load : Except PyErr Model)
    (predict : Model → TestQuery → Except PyErr Response)
    (queries : List TestQuery) : Except PyErr Unit :=
  match load with
  | Except.error e => Except.error e
  | Except.ok m => checkPredictions (predict m) queries

/-- The whole validation cell (lines 95–121): any exception in the body
is caught and re-raised as `RuntimeError`, aborting the run. -/
def runValidation (load : Except PyErr Model)
    (predict : Model → TestQuery → Except PyErr Response)
    (queries : List TestQuery) : Except PyErr Unit :=
  match runValidationBody load predict queries with
  | Except.ok _ => Except.ok ()
  | Except.error _ =>
    Except.error (PyErr.runtimeError "Model validation failed. Deployment aborted.")

/-- The fixed canary queries of the validation cell (lines 99–104). -/
def test_queries : List TestQuery :=
  [{ input := [{ role := "user", content := "What was the customer's data in May?" }],
     custom_inputs := [("customer", "CUS-10001")] }]

/-- The tags argument built at the `deploy_agent` call site (line 154):
include `git_commit` only when it is non-empty (Python truthiness). -/
def deploymentTags (env git_commit : String) : List (String × String) :=
  if git_commit ≠ "" then [("environment", env), ("git_commit", git_commit)]
  else [("environment", env)]

/-- The arguments the notebook passes to `deploy_agent` (lines 150–162). -/
structure DeployArgs where
  uc_model_name : String
  model_version : Nat
  deployment_name : String
  tags : List (String × String)
  scale_to_zero_enabled : Bool
  environment_vars : List (String × String)
  workload_size : String
  wait_for_ready : Bool
  permissions : List Permission
  instructions : Option String
  budget_policy_id : Option String
deriving DecidableEq, Repr

def mkDeployArgs (cfg : DeployAgentConfig) (ver : Nat) : DeployArgs :=
  { uc_model_name := cfg.full_model_name
    model_version := ver
    deployment_name := cfg.endpoint_name
    tags := deploymentTags cfg.env cfg.git_commit
    scale_to_zero_enabled := cfg.scale_to_zero_enabled
    environment_vars := [("ENV", cfg.env)]
    workload_size := cfg.workload_size
    wait_for_ready := cfg.wait_for_ready
    permissions := cfg.permissions
    instructions := cfg.instructions
    budget_policy_id := none }

/-- The result object returned by a successful `deploy_agent` call. -/
structure DeploymentResult where
  endpoint_name : String
  query_endpoint : String
  review_app_url : Option String
deriving DecidableEq, Repr

/-- The built-in scorer classes used by the monitoring cell. -/
inductive BuiltinScorer where
  | safety
deriving DecidableEq, Repr

/-- The wrapper `BuiltInScorerWrapper(name, sample_rate, scorer)` from
`telco_support_agent.evaluation`, as constructed in the monitoring cell. -/
structure BuiltInScorerWrapper where
  name : String
  sample_rate : ℚ
  scorer : BuiltinScorer
deriving DecidableEq, Repr

/-- A custom scorer of the module-level `SCORERS` list: a named
evaluation function with a sample rate (spec's ScorerSpec). -/
structure CustomScorer where
  name : String
  sample_rate : ℚ
deriving DecidableEq, Repr

/-- The fixed built-in scorer list the monitoring cell constructs
(line 212): `[BuiltInScorerWrapper("safety", 0.8, Safety())]`. -/
def builtin_scores : List BuiltInScorerWrapper :=
  [{ name := "safety", sample_rate := (0.8 : ℚ), scorer := BuiltinScorer.safety }]

/-- The arguments the notebook passes to `setup_agent_scorers`
(lines 226–231). -/
structure MonitorArgs where
  experiment_id : String
  replace_existing : Bool
  builtin_scorers : List BuiltInScorerWrapper
  custom_scorers : List CustomScorer
deriving DecidableEq, Repr

def mkMonitorArgs (experimentId : String) (cfg : DeployAgentConfig)
    (scorers : List CustomScorer) : MonitorArgs :=
  { experiment_id := experimentId
    replace_existing := cfg.monitoring_replace_existing
    builtin_scorers := builtin_scores
    custom_scorers := scorers }

/-- The arguments the notebook passes to `cleanup_old_deployments`
(lines 275–284). -/
structure CleanupArgs where
  model_name : String
  current_version : String
  endpoint_name : String
  keep_previous_count : Nat
  max_deletion_attempts : Nat
  wait_between_attempts : Nat
  wait_after_deletion : Nat
  raise_on_error : Bool
deriving DecidableEq, Repr

def mkCleanupArgs (cfg : DeployAgentConfig) (ver : Nat) (endpointName : String) :
    CleanupArgs :=
  { model_name := cfg.full_model_name
    current_version := toString ver
    endpoint_name := endpointName
    keep_previous_count := cfg.keep_previous_count
    max_deletion_attempts := 3
    wait_between_attempts := 60
    wait_after_deletion := 180
    raise_on_error := false }

/-- The report dict returned by `cleanup_old_deployments`. -/
structure CleanupReport where
  versions_kept : List Nat
  versions_deleted : List Nat
  versions_failed : List Nat
deriving DecidableEq, Repr

/-- One test case of the endpoint test cell (lines 324–344);
`custom_inputs := none` models a case without that key. -/
structure TestCase where
  input : List OutputItem
  custom_inputs : Option (List (String × String))
  description : String
deriving DecidableEq, Repr

/-- The four fixed endpoint test cases (lines 324–344). -/
def test_cases : List TestCase :=
  [{ input := [{ role := "user", content := "What plan am I currently on?" }],
     custom_inputs := some [("customer", "CUS-10001")],
     description := "Account query with customer ID" },
   { input := [{ role := "user", content := "Show me my billing details for this month" }],
     custom_inputs := some [("customer", "CUS-10002")],
     description := "Billing query with customer ID" },
   { input := [{ role := "user", content := "What devices do I have on my account?" }],
     custom_inputs := some [("customer", "CUS-10003")],
     description := "Product query with customer ID" },
   { input := [{ role := "user", content := "My phone won't connect to WiFi" }],
     custom_inputs := none,
     description := "Tech support query (no custom inputs required)" }]

/-- The externally visible calls a run makes. -/
inductive Event where
  | deployCall (args : DeployArgs)
  | monitorCall (args : MonitorArgs)
  | cleanupCall (args : CleanupArgs)
  | smokeCall (idx : Nat)
deriving DecidableEq, Repr

def Event.isDeploy : Event → Bool
  | Event.deployCall _ => true
  | _ => false

/-- The responses the external platform gives to each call the notebook
makes during one run. -/
structure World where
  experimentId : String
  registryVersions : List Nat
  loadResult : Except PyErr Model
  predictResult : Model → TestQuery → Except PyErr Response
  deployResult : Except PyErr DeploymentResult
  monitorResult : Except PyErr (List String)
  cleanupResult : Except PyErr CleanupReport
  smokeBody : TestCase → Except PyErr Unit

/-- The monitoring cell (lines 203–255): when enabled, call
`setup_agent_scorers`; `AgentMonitoringError` and any unexpected error
are caught, re-raised only when `monitoring_fail_on_error` is set. -/
def monitoringStage (cfg : DeployAgentConfig) (experimentId : String)
    (scorers : List CustomScorer) (res : Except PyErr (List String)) :
    List Event × Except PyErr Unit :=
  if cfg.monitoring_enabled then
    ([Event.monitorCall (mkMonitorArgs experimentId cfg scorers)],
      match res with
      | Except.ok _ => Except.ok ()
      | Except.error e =>
        if cfg.monitoring_fail_on_error then Except.error e else Except.ok ())
  else ([], Except.ok ())

/-- The cleanup cell (lines 264–307): when enabled, call
`cleanup_old_deployments` with fixed retry/backoff arguments;
`AgentDeploymentError` and any unexpected error are caught and the run
continues. -/
def cleanupStage (cfg : DeployAgentConfig) (ver : Nat) (dres : DeploymentResult)
    (_res : Except PyErr CleanupReport) : List Event × Except PyErr Unit :=
  if cfg.cleanup_old_versions then
    ([Event.cleanupCall (mkCleanupArgs cfg ver dres.endpoint_name)], Except.ok ())
  else ([], Except.ok ())

/-- The per-case body of the endpoint test loop (lines 346–377), with
the `try`/`except` applied: the recorded outcome is whether the body
raised; a raise is caught and never propagates. -/
def runEndpointTests (body : TestCase → Except PyErr Unit) (cases : List TestCase) :
    List Bool :=
  cases.map (fun c => (body c).isOk)

/-- The endpoint test cell as a stage: per-case pass/fail results plus
the stage outcome, which is always success because every exception is
caught inside the loop. -/
def smokeStage (body : TestCase → Except PyErr Unit) (cases : List TestCase) :
    List Bool × Except PyErr Unit :=
  (runEndpointTests body cases, Except.ok ())

def smokeEvents : List Event :=
  (List.range test_cases.length).map Event.smokeCall

/-- The whole notebook run after config load: version resolution,
validation, deployment, monitoring, cleanup, endpoint tests.  An
uncaught exception in a cell ends the run with that error and no
further cell executes. -/
def runPipeline (cfg : DeployAgentConfig) (scorers : List CustomScorer) (w : World) :
    List Event × Except PyErr Unit :=
  match resolveModelVersion cfg w.registryVersions with
  | Except.error e => ([], Except.error e)
  | Except.ok ver =>
    match runValidation w.loadResult w.predictResult test_queries with
    | Except.error e => ([], Except.error e)
    | Except.ok _ =>
      match w.deployResult with
      | Except.error e => ([Event.deployCall (mkDeployArgs cfg ver)], Except.error e)
      | Except.ok dres =>
        match (monitoringStage cfg w.experimentId scorers w.monitorResult).2 with
        | Except.error e =>
          (Event.deployCall (mkDeployArgs cfg ver) ::
            (monitoringStage cfg w.experimentId scorers w.monitorResult).1,
            Except.error e)
        | Except.ok _ =>
          (Event.deployCall (mkDeployArgs cfg ver) ::
            ((monitoringStage cfg w.experimentId scorers w.monitorResult).1 ++
              ((cleanupStage cfg ver dres w.cleanupResult).1 ++ smokeEvents)),
            (smokeStage w.smokeBody test_cases).2)

/-- Modelled from the spec: the kept-vs-candidates partition step of
`cleanup_old_deployments` from `telco_support_agent.ops.deployment`
(not in this snapshot).  Given the registry's versions sorted
descending, kept is the current version together with the
`keepPrev` next-most-recent other versions; candidates is everything
else. -/
def cleanupPartition (versionsDesc : List Nat) (current : Nat) (keepPrev : Nat) :
    List Nat × List Nat :=
  let others := versionsDesc.filter (fun v => v != current)
  (current :: others.take keepPrev, others.drop keepPrev)

/-- First attempt number in `start, start+1, …` (taking `n` attempts in
all) at which the deletion call succeeds, or `none` when every attempt
in the budget fails. -/
def firstSuccess (succeedsAt : Nat → Bool) : Nat → Nat → Option Nat
  | _, 0 => none
  | start, n + 1 =>
    if succeedsAt start then some start else firstSuccess succeedsAt (start + 1) n

/-- Number of deletion attempts actually made for one candidate under a
budget of `maxAttempts`: the loop stops at the first success and never
retries past the budget. -/
def attemptsMade (succeedsAt : Nat → Bool) (maxAttempts : Nat) : Nat :=
  match firstSuccess succeedsAt 1 maxAttempts with
  | some k => k
  | none => maxAttempts

/-- Modelled from the spec: `cleanup_old_deployments` from
`telco_support_agent.ops.deployment` (not in this snapshot).
`deleteSucceeds v k` tells whether the k-th deletion attempt for
version `v` succeeds.  Versions are enumerated sorted descending,
partitioned into kept and candidates, and each candidate is deleted
with up to `maxAttempts` attempts, ending in the deleted or the failed
set. -/
def cleanup_old_deployments (deleteSucceeds : Nat → Nat → Bool)
    (versionsDesc : List Nat) (current : Nat) (keepPrev : Nat) (maxAttempts : Nat) :
    CleanupReport :=
  let p := cleanupPartition versionsDesc current keepPrev
  { versions_kept := p.1
    versions_deleted :=
      p.2.filter (fun v => (firstSuccess (deleteSucceeds v) 1 maxAttempts).isSome)
    versions_failed :=
      p.2.filter (fun v => (firstSuccess (deleteSucceeds v) 1 maxAttempts).isNone) }

/-- The partition facts claimed for one cleanup run: the kept list is
the current version plus the `keepPrev` next-most-recent other
versions; kept, deleted and failed are pairwise disjoint; and together
they cover exactly the considered versions (the registry's versions
plus the current one). -/
def CleanupPartitionOK (del : Nat → Nat → Bool) (versionsDesc : List Nat)
    (current keepPrev maxAttempts : Nat) : Prop :=
  let r := cleanup_old_deployments del versionsDesc current keepPrev maxAttempts
  r.versions_kept =
      current :: (versionsDesc.filter (fun v => v != current)).take keepPrev ∧
  List.Disjoint r.versions_kept r.versions_deleted ∧
  List.Disjoint r.versions_kept r.versions_failed ∧
  List.Disjoint r.versions_deleted r.versions_failed ∧
  ∀ v, (v ∈ versionsDesc ∨ v = current) ↔
    (v ∈ r.versions_kept ∨ v ∈ r.versions_deleted ∨ v ∈ r.versions_failed)

/-! Concrete fixtures used by the witnesses. -/

/-- A config mirroring the notebook's widget defaults, with the
optional stages enabled. -/
def baseConfig : DeployAgentConfig :=
  { env := "dev"
    git_commit := ""
    uc_catalog := "workspace"
    agent_schema := "agent"
    model_name := "telco_customer_support_agent"
    model_version := none
    endpoint_name := "dev-telco-customer-support-agent"
    scale_to_zero_enabled := true
    workload_size := "Small"
    wait_for_ready := true
    permissions := []
    instructions := none
    monitoring_enabled := true
    monitoring_replace_existing := true
    monitoring_fail_on_error := false
    cleanup_old_versions := true
    keep_previous_count := 2 }

def okOutput : List OutputItem := [{ role := "assistant", content := "Usage was 4GB" }]

def okResponse : Response := some [("output", okOutput)]

/-- A run in which every external call succeeds. -/
def goodWorld : World :=
  { experimentId := "exp-123"
    registryVersions := [1, 2, 3]
    loadResult := Except.ok { uri := "models:/workspace.agent.telco_customer_support_agent/3" }
    predictResult := fun _ _ => Except.ok okResponse
    deployResult := Except.ok
      { endpoint_name := "dev-telco-customer-support-agent"
        query_endpoint := "serving-endpoints/dev-telco-customer-support-agent/invocations"
        review_app_url := none }
    monitorResult := Except.ok ["safety"]
    cleanupResult := Except.ok
      { versions_kept := [3, 2], versions_deleted := [1], versions_failed := [] }
    smokeBody := fun _ => Except.ok () }

/-- A run whose canary prediction returns `None` (invalid response). -/
def badValidationWorld : World :=
  { goodWorld with predictResult := fun _ _ => Except.ok none }

/-- A run in which scorer registration raises `AgentMonitoringError`. -/
def monitorFailWorld : World :=
  { goodWorld with
      monitorResult := Except.error (PyErr.agentMonitoringError "scorer registration failed") }

/-! Helper lemmas. -/

theorem lookup_some_ne_nil {d : ResponseDict} {out : List OutputItem}
    (h : d.lookup "output" = some out) : d ≠ [] := by
  intro hd
  subst hd
  simp [List.lookup] at h

theorem responseValid_iff (r : Response) :
    responseValid r = true ↔
      ∃ d out, r = some d ∧ d.lookup "output" = some out ∧ out ≠ [] := by
  cases r with
  | none => simp [responseValid]
  | some d =>
    cases hl : d.lookup "output" with
    | none => simp [responseValid, hl]
    | some out =>
      cases out with
      | nil => simp [responseValid, hl]
      | cons a t =>
        have hd : d ≠ [] := lookup_some_ne_nil hl
        simp [responseValid, hl, List.isEmpty_iff, hd]

theorem checkPredictions_ok_iff (predict : TestQuery → Except PyErr Response)
    (queries : List TestQuery) :
    checkPredictions predict queries = Except.ok () ↔
      ∀ q ∈ queries, ∃ r, predict q = Except.ok r ∧ responseValid r = true := by
  induction queries with
  | nil => simp [checkPredictions]
  | cons q rest ih =>
    simp only [checkPredictions, List.forall_mem_cons]
    cases hp : predict q with
    | error e => simp [hp]
    | ok r =>
      by_cases hr : responseValid r = true
      · simp [hp, hr, ih]
      · simp [hp, hr]

theorem get_latest_mem : ∀ (l : List Nat) (m : Nat),
    get_latest_model_version l = some m → m ∈ l := by
  intro l
  induction l with
  | nil => intro m h; simp [get_latest_model_version] at h
  | cons v rest ih =>
    intro m h
    simp only [get_latest_model_version] at h
    cases hr : get_latest_model_version rest with
    | none => rw [hr] at h; cases h; exact List.mem_cons_self _ _
    | some m' =>
      rw [hr] at h
      cases h
      rcases Nat.le_total v m' with hle | hle
      · rw [Nat.max_eq_right hle]
        exact List.mem_cons_of_mem _ (ih m' hr)
      · rw [Nat.max_eq_left hle]
        exact List.mem_cons_self _ _

theorem get_latest_ub : ∀ (l : List Nat) (m : Nat),
    get_latest_model_version l = some m → ∀ x ∈ l, x ≤ m := by
  intro l
  induction l with
  | nil => intro m _ x hx; simp at hx
  | cons v rest ih =>
    intro m h x hx
    simp only [get_latest_model_version] at h
    cases hr : get_latest_model_version rest with
    | none =>
      rw [hr] at h
      cases h
      have : rest = [] := by
        cases rest with
        | nil => rfl
        | cons a t =>
          simp only [get_latest_model_version] at hr
          cases hgan : get_latest_model_version t <;> rw [hgan] at hr <;> cases hr
      subst this
      simp at hx
      subst hx
      exact Nat.le_refl _
    | some m' =>
      rw [hr] at h
      cases h
      rcases List.mem_cons.mp hx with hx | hx
      · subst hx; exact Nat.le_max_left _ _
      · exact Nat.le_trans (ih m' hr x hx) (Nat.le_max_right _ _)

theorem get_latest_none_iff (l : List Nat) :
    get_latest_model_version l = none ↔ l = [] := by
  cases l with
  | nil => simp [get_latest_model_version]
  | cons v rest =>
    simp only [get_latest_model_version]
    constructor
    · intro h
      cases hr : get_latest_model_version rest <;> rw [hr] at h <;> cases h
    · intro h; cases h

/-! Claim theorems. -/

/-- C2: The pre-deployment validation cell fails (with the wrapping
`RuntimeError` raised from the caught exception) whenever the model
fails to load, a canary prediction raises, or a canary response is
`None`, lacks an `output` key, or has an empty output list; it succeeds
exactly when the model loads and every canary response carries a
non-empty output list. -/
theorem c2_validation_contract (load : Except PyErr Model)
    (predict : Model → TestQuery → Except PyErr Response)
    (queries : List TestQuery) :
    ((runValidation load predict queries = Except.ok ()) ↔
      ∃ m, load = Except.ok m ∧ ∀ q ∈ queries, ∃ d out,
        predict m q = Except.ok (some d) ∧ d.lookup "output" = some out ∧ out ≠ []) ∧
    (runValidation load predict queries ≠ Except.ok () →
      runValidation load predict queries =
        Except.error (PyErr.runtimeError "Model validation failed. Deployment aborted.")) := by
  constructor
  · have hbody : runValidation load predict queries = Except.ok () ↔
        runValidationBody load predict queries = Except.ok () := by
      unfold runValidation
      cases hb : runValidationBody load predict queries with
      | ok u => cases u; simp
      | error e => simp
    rw [hbody]
    unfold runValidationBody
    cases load with
    | error e => simp
    | ok m =>
      rw [checkPredictions_ok_iff]
      simp only [Except.ok.injEq, exists_eq_left']
      constructor
      · intro h q hq
        rcases h q hq with ⟨r, hp, hr⟩
        rcases (responseValid_iff r).mp hr with ⟨d, out, hrd, hl, hne⟩
        subst hrd
        exact ⟨d, out, hp, hl, hne⟩
      · intro h q hq
        rcases h q hq with ⟨d, out, hp, hl, hne⟩
        exact ⟨some d, hp, (responseValid_iff _).mpr ⟨d, out, rfl, hl, hne⟩⟩
  · intro h
    unfold runValidation at h ⊢
    cases hb : runValidationBody load predict queries with
    | ok u => cases u; rw [hb] at h; simp at h
    | error e => rfl

/-- C3: The model-version resolution cell returns `config.model_version`
unchanged when set; when unset it returns the maximum version the
registry knows for `config.full_model_name`, and raises the
no-versions-found error when the registry has no versions. -/
theorem c3_version_resolution (cfg : DeployAgentConfig) (registry : List Nat) :
    (∀ v, cfg.model_version = some v →
      resolveModelVersion cfg registry = Except.ok v) ∧
    (cfg.model_version = none → registry ≠ [] →
      ∃ m, resolveModelVersion cfg registry = Except.ok m ∧
        m ∈ registry ∧ ∀ x ∈ registry, x ≤ m) ∧
    (cfg.model_version = none → registry = [] →
      resolveModelVersion cfg registry =
        Except.error (PyErr.valueError
          ("No versions found for model: " ++ cfg.full_model_name))) := by
  refine ⟨?_, ?_, ?_⟩
  · intro v hv
    simp [resolveModelVersion, hv]
  · intro hnone hne
    cases hg : get_latest_model_version registry with
    | none => exact absurd ((get_latest_none_iff registry).mp hg) hne
    | some m =>
      exact ⟨m, by simp [resolveModelVersion, hnone, hg],
        get_latest_mem registry m hg, get_latest_ub registry m hg⟩
  · intro hnone hnil
    subst hnil
    simp [resolveModelVersion, hnone, get_latest_model_version]

/-- C3 witness: resolution at concrete configs and registries. -/
theorem c3_version_resolution_witness :
    resolveModelVersion { baseConfig with model_version := some 7 } [1, 2, 3] = Except.ok 7 ∧
    (∃ m, resolveModelVersion baseConfig [1, 2, 3] = Except.ok m ∧
      m ∈ [1, 2, 3] ∧ ∀ x ∈ [1, 2, 3], x ≤ m) ∧
    resolveModelVersion baseConfig [] =
      Except.error (PyErr.valueError
        ("No versions found for model: " ++ baseConfig.full_model_name)) :=
  ⟨(c3_version_resolution { baseConfig with model_version := some 7 } [1, 2, 3]).1 7 rfl,
   (c3_version_resolution baseConfig [1, 2, 3]).2.1 rfl (by decide),
   (c3_version_resolution baseConfig []).2.2 rfl rfl⟩

/-- C4: The tag set passed to `deploy_agent` always carries the
`environment` tag, and carries the `git_commit` tag exactly when
`config.git_commit` is non-empty. -/
theorem c4_deployment_tags (env gc : String) (cfg : DeployAgentConfig) (ver : Nat) :
    (gc = "" → deploymentTags env gc = [("environment", env)]) ∧
    (gc ≠ "" → deploymentTags env gc = [("environment", env), ("git_commit", gc)]) ∧
    (deploymentTags env gc).lookup "environment" = some env ∧
    (((deploymentTags env gc).lookup "git_commit").isSome = true ↔ gc ≠ "") ∧
    (mkDeployArgs cfg ver).tags = deploymentTags cfg.env cfg.git_commit := by
  by_cases h : gc = ""
  · subst h
    refine ⟨fun _ => rfl, fun hne => absurd rfl hne, ?_, ?_, rfl⟩
    · simp [deploymentTags, List.lookup]
    · simp [deploymentTags, List.lookup]
  · refine ⟨fun he => absurd he h, fun _ => by simp [deploymentTags, h], ?_, ?_, rfl⟩
    · simp [deploymentTags, h, List.lookup]
    · simp [deploymentTags, h, List.lookup]

/-- C4 witness: tags at an empty and a non-empty commit. -/
theorem c4_deployment_tags_witness :
    deploymentTags "dev" "" = [("environment", "dev")] ∧
    deploymentTags "dev" "abc123" = [("environment", "dev"), ("git_commit", "abc123")] :=
  ⟨(c4_deployment_tags "dev" "" baseConfig 3).1 rfl,
   (c4_deployment_tags "dev" "abc123" baseConfig 3).2.1 (by decide)⟩

/-- C1: If the pre-deployment validation cell fails, the run makes no
external call at all afterwards: the trace is empty (in particular
`deploy_agent` is never called and no endpoint mutation occurs) and
the run aborts. -/
theorem c1_validation_failure_blocks_deploy (cfg : DeployAgentConfig)
    (scorers : List CustomScorer) (w : World) (e : PyErr)
    (h : runValidation w.loadResult w.predictResult test_queries = Except.error e) :
    (runPipeline cfg scorers w).1 = [] ∧
    (runPipeline cfg scorers w).2.isOk = false := by
  unfold runPipeline
  cases hr : resolveModelVersion cfg w.registryVersions with
  | error e' => simp [Except.isOk, Except.toBool]
  | ok ver => rw [h]; simp [Except.isOk, Except.toBool]

/-- C1 witness: a run whose canary prediction returns an invalid
response makes no deployment call. -/
theorem c1_validation_failure_blocks_deploy_witness :
    (runPipeline baseConfig [] badValidationWorld).1 = [] ∧
    (runPipeline baseConfig [] badValidationWorld).2.isOk = false :=
  c1_validation_failure_blocks_deploy baseConfig [] badValidationWorld
    (PyErr.runtimeError "Model validation failed. Deployment aborted.") rfl

/-- C2 witness: validation succeeds on a stub model returning a
non-empty output, and fails (with the wrapping runtime error) when a
canary response is `None`. -/
theorem c2_validation_contract_witness :
    runValidation goodWorld.loadResult goodWorld.predictResult test_queries =
      Except.ok () ∧
    runValidation badValidationWorld.loadResult badValidationWorld.predictResult
      test_queries =
      Except.error (PyErr.runtimeError "Model validation failed. Deployment aborted.") :=
  ⟨(c2_validation_contract goodWorld.loadResult goodWorld.predictResult
      test_queries).1.mpr
      ⟨{ uri := "models:/workspace.agent.telco_customer_support_agent/3" }, rfl,
        by
          intro q hq
          exact ⟨[("output", okOutput)], okOutput, rfl, rfl, by decide⟩⟩,
   (c2_validation_contract badValidationWorld.loadResult
      badValidationWorld.predictResult test_queries).2 (fun hcontra => by
        rw [show runValidation badValidationWorld.loadResult
            badValidationWorld.predictResult test_queries =
            Except.error
              (PyErr.runtimeError "Model validation failed. Deployment aborted.")
          from rfl] at hcontra
        exact Except.noConfusion hcontra)⟩

/-- C5: When scorer registration fails, the run continues to the
cleanup and smoke-test stages if `monitoring_fail_on_error` is false,
and aborts with that error if it is true; in both cases the deployment
call has already been made and the pipeline has no rollback operation,
so the deployed endpoint is untouched. -/
theorem c5_monitoring_error_policy (cfg : DeployAgentConfig)
    (scorers : List CustomScorer) (w : World) (ver : Nat)
    (dres : DeploymentResult) (e : PyErr)
    (hres : resolveModelVersion cfg w.registryVersions = Except.ok ver)
    (hval : runValidation w.loadResult w.predictResult test_queries = Except.ok ())
    (hdep : w.deployResult = Except.ok dres)
    (hmon : cfg.monitoring_enabled = true)
    (herr : w.monitorResult = Except.error e) :
    (cfg.monitoring_fail_on_error = true →
      runPipeline cfg scorers w =
        ([Event.deployCall (mkDeployArgs cfg ver),
          Event.monitorCall (mkMonitorArgs w.experimentId cfg scorers)],
         Except.error e)) ∧
    (cfg.monitoring_fail_on_error = false →
      (runPipeline cfg scorers w).2 = Except.ok () ∧
      (runPipeline cfg scorers w).1 =
        Event.deployCall (mkDeployArgs cfg ver) ::
          Event.monitorCall (mkMonitorArgs w.experimentId cfg scorers) ::
            ((cleanupStage cfg ver dres w.cleanupResult).1 ++ smokeEvents) ∧
      (cfg.cleanup_old_versions = true →
        (cleanupStage cfg ver dres w.cleanupResult).1 =
          [Event.cleanupCall (mkCleanupArgs cfg ver dres.endpoint_name)])) ∧
    Event.deployCall (mkDeployArgs cfg ver) ∈ (runPipeline cfg scorers w).1 := by
  cases hf : cfg.monitoring_fail_on_error with
  | true =>
    have hrun : runPipeline cfg scorers w =
        ([Event.deployCall (mkDeployArgs cfg ver),
          Event.monitorCall (mkMonitorArgs w.experimentId cfg scorers)],
         Except.error e) := by
      unfold runPipeline monitoringStage
      rw [hres, hval, hdep, hmon, herr]
      simp [hf]
    refine ⟨fun _ => hrun, fun hc => ?_, ?_⟩
    · exact Bool.noConfusion hc
    · rw [hrun]; exact List.mem_cons_self _ _
  | false =>
    have hrun : runPipeline cfg scorers w =
        (Event.deployCall (mkDeployArgs cfg ver) ::
          Event.monitorCall (mkMonitorArgs w.experimentId cfg scorers) ::
            ((cleanupStage cfg ver dres w.cleanupResult).1 ++ smokeEvents),
         Except.ok ()) := by
      unfold runPipeline monitoringStage
      rw [hres, hval, hdep, hmon, herr]
      simp [hf, smokeStage]
    refine ⟨fun hc => ?_, fun _ => ?_, ?_⟩
    · exact Bool.noConfusion hc
    · refine ⟨by rw [hrun], by rw [hrun], fun hcl => ?_⟩
      unfold cleanupStage
      rw [hcl]
      simp
    · rw [hrun]; exact List.mem_cons_self _ _

/-- C5 witness: a run with a failing scorer registration and
`monitoring_fail_on_error = false` still finishes successfully, with
the deployment call in its trace. -/
theorem c5_monitoring_error_policy_witness :
    (runPipeline baseConfig [] monitorFailWorld).2 = Except.ok () ∧
    Event.deployCall (mkDeployArgs baseConfig 3) ∈
      (runPipeline baseConfig [] monitorFailWorld).1 :=
  ⟨((c5_monitoring_error_policy baseConfig [] monitorFailWorld 3
      { endpoint_name := "dev-telco-customer-support-agent"
        query_endpoint := "serving-endpoints/dev-telco-customer-support-agent/invocations"
        review_app_url := none }
      (PyErr.agentMonitoringError "scorer registration failed")
      rfl rfl rfl rfl rfl).2.1 rfl).1,
   (c5_monitoring_error_policy baseConfig [] monitorFailWorld 3
      { endpoint_name := "dev-telco-customer-support-agent"
        query_endpoint := "serving-endpoints/dev-telco-customer-support-agent/invocations"
        review_app_url := none }
      (PyErr.agentMonitoringError "scorer registration failed")
      rfl rfl rfl rfl rfl).2.2⟩

/-- C8: Each endpoint test case is run independently: the stage records
one outcome per case, the outcome of the i-th case depends only on its
own body, and the stage always returns success to the driver (every
per-case raise is caught inside the loop). -/
theorem c8_smoke_tests_independent (body : TestCase → Except PyErr Unit)
    (cs : List TestCase) :
    (runEndpointTests body cs).length = cs.length ∧
    (∀ i : Nat, (runEndpointTests body cs)[i]? =
      (cs[i]?).map (fun c => (body c).isOk)) ∧
    (smokeStage body cs).2 = Except.ok () := by
  refine ⟨by simp [runEndpointTests], ?_, rfl⟩
  intro i
  simp [runEndpointTests]

/-- C9: Any `cleanup_old_deployments` call the driver makes carries the
fixed arguments `max_deletion_attempts = 3`, `wait_between_attempts =
60`, `wait_after_deletion = 180`, `raise_on_error = false`, and the
resolved version rendered as a string; and the cleanup cell always
returns success to the driver (all its exceptions are caught), so
cleanup never aborts the run. -/
theorem c9_cleanup_fixed_args (cfg : DeployAgentConfig)
    (scorers : List CustomScorer) (w : World) (args : CleanupArgs)
    (h : Event.cleanupCall args ∈ (runPipeline cfg scorers w).1) :
    (args.max_deletion_attempts = 3 ∧ args.wait_between_attempts = 60 ∧
     args.wait_after_deletion = 180 ∧ args.raise_on_error = false ∧
     ∃ ver, resolveModelVersion cfg w.registryVersions = Except.ok ver ∧
       args.current_version = toString ver) ∧
    (∀ (cfg2 : DeployAgentConfig) (ver : Nat) (dres : DeploymentResult)
       (res : Except PyErr CleanupReport),
      (cleanupStage cfg2 ver dres res).2 = Except.ok ()) := by
  constructor
  · unfold runPipeline at h
    cases hres : resolveModelVersion cfg w.registryVersions with
    | error e => rw [hres] at h; simp at h
    | ok ver =>
      rw [hres] at h
      cases hval : runValidation w.loadResult w.predictResult test_queries with
      | error e => rw [hval] at h; simp at h
      | ok u =>
        cases u
        rw [hval] at h
        cases hdep : w.deployResult with
        | error e => rw [hdep] at h; simp at h
        | ok dres =>
          rw [hdep] at h
          cases hm : (monitoringStage cfg w.experimentId scorers w.monitorResult).2 with
          | error e =>
            rw [hm] at h
            by_cases hen : cfg.monitoring_enabled = true
            · simp [monitoringStage, hen] at h
            · simp [monitoringStage, hen] at h
          | ok u2 =>
            cases u2
            rw [hm] at h
            by_cases hcl : cfg.cleanup_old_versions = true
            · by_cases hen : cfg.monitoring_enabled = true
              · simp [monitoringStage, hen, cleanupStage, hcl, smokeEvents] at h
                subst h
                exact ⟨rfl, rfl, rfl, rfl, ver, rfl, rfl⟩
              · simp [monitoringStage, hen, cleanupStage, hcl, smokeEvents] at h
                subst h
                exact ⟨rfl, rfl, rfl, rfl, ver, rfl, rfl⟩
            · by_cases hen : cfg.monitoring_enabled = true
              · simp [monitoringStage, hen, cleanupStage, hcl, smokeEvents] at h
              · simp [monitoringStage, hen, cleanupStage, hcl, smokeEvents] at h
  · intro cfg2 ver dres res
    by_cases h2 : cfg2.cleanup_old_versions = true
    · simp [cleanupStage, h2]
    · simp [cleanupStage, h2]

/-- C9 witness: the cleanup call of a fully successful run carries the
fixed retry and backoff arguments. -/
theorem c9_cleanup_fixed_args_witness :
    (mkCleanupArgs baseConfig 3 "dev-telco-customer-support-agent").max_deletion_attempts
        = 3 ∧
    (mkCleanupArgs baseConfig 3 "dev-telco-customer-support-agent").wait_between_attempts
        = 60 ∧
    (mkCleanupArgs baseConfig 3 "dev-telco-customer-support-agent").wait_after_deletion
        = 180 ∧
    (mkCleanupArgs baseConfig 3 "dev-telco-customer-support-agent").raise_on_error
        = false ∧
    ∃ ver, resolveModelVersion baseConfig goodWorld.registryVersions = Except.ok ver ∧
      (mkCleanupArgs baseConfig 3 "dev-telco-customer-support-agent").current_version
        = toString ver :=
  (c9_cleanup_fixed_args baseConfig [] goodWorld
    (mkCleanupArgs baseConfig 3 "dev-telco-customer-support-agent") (by decide)).1

/-- C10: The monitoring cell calls `setup_agent_scorers` exactly when
`monitoring_enabled` is set, and then always with the fixed built-in
scorer list (one safety wrapper at sample rate 0.8) and the
module-level custom scorer list; neither scorer set is read from the
config. -/
theorem c10_scorer_sets_fixed (cfg : DeployAgentConfig) (experimentId : String)
    (scorers : List CustomScorer) (res : Except PyErr (List String)) :
    (cfg.monitoring_enabled = true →
      (monitoringStage cfg experimentId scorers res).1 =
        [Event.monitorCall
          { experiment_id := experimentId
            replace_existing := cfg.monitoring_replace_existing
            builtin_scorers :=
              [{ name := "safety", sample_rate := (0.8 : ℚ),
                 scorer := BuiltinScorer.safety }]
            custom_scorers := scorers }]) ∧
    (cfg.monitoring_enabled = false →
      (monitoringStage cfg experimentId scorers res).1 = []) := by
  constructor
  · intro h
    simp [monitoringStage, h, mkMonitorArgs, builtin_scores]
  · intro h
    simp [monitoringStage, h]

/-- C10 witness: the monitoring call of the default config carries the
fixed scorer sets. -/
theorem c10_scorer_sets_fixed_witness :
    (monitoringStage baseConfig "exp-123" [] (Except.ok ["safety"])).1 =
      [Event.monitorCall
        { experiment_id := "exp-123"
          replace_existing := true
          builtin_scorers :=
            [{ name := "safety", sample_rate := (0.8 : ℚ),
               scorer := BuiltinScorer.safety }]
          custom_scorers := [] }] :=
  (c10_scorer_sets_fixed baseConfig "exp-123" [] (Except.ok ["safety"])).1 rfl

theorem firstSuccess_le (s : Nat → Bool) :
    ∀ (n start k : Nat), firstSuccess s start n = some k → start ≤ k ∧ k < start + n := by
  intro n
  induction n with
  | zero => intro start k h; simp [firstSuccess] at h
  | succ n ih =>
    intro start k h
    simp only [firstSuccess] at h
    by_cases hs : s start = true
    · rw [if_pos hs] at h
      cases h
      omega
    · rw [if_neg hs] at h
      have := ih (start + 1) k h
      omega

theorem firstSuccess_succeeds (s : Nat → Bool) :
    ∀ (n start k : Nat), firstSuccess s start n = some k → s k = true := by
  intro n
  induction n with
  | zero => intro start k h; simp [firstSuccess] at h
  | succ n ih =>
    intro start k h
    simp only [firstSuccess] at h
    by_cases hs : s start = true
    · rw [if_pos hs] at h
      cases h
      exact hs
    · rw [if_neg hs] at h
      exact ih (start + 1) k h

theorem firstSuccess_isSome_iff (s : Nat → Bool) :
    ∀ (n start : Nat), (firstSuccess s start n).isSome = true ↔
      ∃ k, start ≤ k ∧ k < start + n ∧ s k = true := by
  intro n
  induction n with
  | zero =>
    intro start
    simp only [firstSuccess, Option.isSome_none]
    constructor
    · intro h; exact Bool.noConfusion h
    · rintro ⟨k, h1, h2, -⟩; exact absurd h2 (by omega)
  | succ n ih =>
    intro start
    simp only [firstSuccess]
    by_cases hs : s start = true
    · rw [if_pos hs]
      constructor
      · intro _; exact ⟨start, Nat.le_refl _, by omega, hs⟩
      · intro _; rfl
    · rw [if_neg hs]
      rw [ih (start + 1)]
      constructor
      · rintro ⟨k, h1, h2, h3⟩; exact ⟨k, by omega, by omega, h3⟩
      · rintro ⟨k, h1, h2, h3⟩
        refine ⟨k, ?_, by omega, h3⟩
        rcases Nat.eq_or_lt_of_le h1 with he | hl
        · subst he; exact absurd h3 hs
        · omega

theorem attemptsMade_le (s : Nat → Bool) (maxAttempts : Nat) :
    attemptsMade s maxAttempts ≤ maxAttempts := by
  unfold attemptsMade
  cases hf : firstSuccess s 1 maxAttempts with
  | none => exact Nat.le_refl _
  | some k =>
    show k ≤ maxAttempts
    have := firstSuccess_le s maxAttempts 1 k hf
    omega

/-- C6: For every descending-sorted version list, the Retention Cleanup
Engine keeps the current version plus the `keep_previous_count`
next-most-recent versions and considers the rest candidates; kept,
deleted and failed are pairwise disjoint and jointly cover every
considered version; every kept non-current version is more recent than
every candidate; and on versions [10,9,8,7,6] with current 10 and
keep-count 2 it keeps [10,9,8] and treats [7,6] as candidates. -/
theorem c6_cleanup_partition (del : Nat → Nat → Bool) (versionsDesc : List Nat)
    (current keepPrev maxAttempts : Nat)
    (hs : List.Sorted (· > ·) versionsDesc) :
    CleanupPartitionOK del versionsDesc current keepPrev maxAttempts ∧
    (∀ a ∈ (versionsDesc.filter (fun v => v != current)).take keepPrev,
      ∀ b ∈ (versionsDesc.filter (fun v => v != current)).drop keepPrev, a > b) ∧
    cleanup_old_deployments (fun _ _ => true) [10, 9, 8, 7, 6] 10 2 3 =
      { versions_kept := [10, 9, 8], versions_deleted := [7, 6],
        versions_failed := [] } := by
  have hobo : List.Pairwise (· > ·) (versionsDesc.filter (fun v => v != current)) :=
    List.Pairwise.filter _ hs
  have happ : ((versionsDesc.filter (fun v => v != current)).take keepPrev ++
      (versionsDesc.filter (fun v => v != current)).drop keepPrev).Pairwise
        (· > ·) := by
    rw [List.take_append_drop]
    exact hobo
  have hcross := (List.pairwise_append.mp happ).2.2
  have hcur : current ∉ versionsDesc.filter (fun v => v != current) := by
    simp [List.mem_filter]
  refine ⟨⟨rfl, ?_, ?_, ?_, ?_⟩, hcross, by decide⟩
  · intro a ha hb
    have hbdrop : a ∈ (versionsDesc.filter (fun v => v != current)).drop keepPrev :=
      (List.mem_filter.mp hb).1
    rcases List.mem_cons.mp ha with rfl | hatake
    · exact hcur (List.drop_subset _ _ hbdrop)
    · exact Nat.lt_irrefl a (hcross a hatake a hbdrop)
  · intro a ha hb
    have hbdrop : a ∈ (versionsDesc.filter (fun v => v != current)).drop keepPrev :=
      (List.mem_filter.mp hb).1
    rcases List.mem_cons.mp ha with rfl | hatake
    · exact hcur (List.drop_subset _ _ hbdrop)
    · exact Nat.lt_irrefl a (hcross a hatake a hbdrop)
  · intro a ha hb
    have h1 := (List.mem_filter.mp ha).2
    have h2 := (List.mem_filter.mp hb).2
    cases hfs : firstSuccess (del a) 1 maxAttempts with
    | none => rw [hfs] at h1; exact Bool.noConfusion h1
    | some k => rw [hfs] at h2; exact Bool.noConfusion h2
  · intro v
    constructor
    · rintro (hv | rfl)
      · by_cases hvc : v = current
        · subst hvc; exact Or.inl (List.mem_cons_self _ _)
        · have hvo : v ∈ versionsDesc.filter (fun v => v != current) :=
            List.mem_filter.mpr ⟨hv, by simp [hvc]⟩
          rw [← List.take_append_drop keepPrev
            (versionsDesc.filter (fun v => v != current))] at hvo
          rcases List.mem_append.mp hvo with htake | hdrop
          · exact Or.inl (List.mem_cons_of_mem _ htake)
          · cases hfs : firstSuccess (del v) 1 maxAttempts with
            | some k =>
              refine Or.inr (Or.inl (List.mem_filter.mpr ⟨hdrop, ?_⟩))
              rw [hfs]
              rfl
            | none =>
              refine Or.inr (Or.inr (List.mem_filter.mpr ⟨hdrop, ?_⟩))
              rw [hfs]
              rfl
      · exact Or.inl (List.mem_cons_self _ _)
    · rintro (hk | hd | hf)
      · rcases List.mem_cons.mp hk with rfl | htake
        · exact Or.inr rfl
        · exact Or.inl (List.mem_of_mem_filter (List.take_subset _ _ htake))
      · exact Or.inl (List.mem_of_mem_filter
          (List.drop_subset _ _ (List.mem_filter.mp hd).1))
      · exact Or.inl (List.mem_of_mem_filter
          (List.drop_subset _ _ (List.mem_filter.mp hf).1))

/-- C6 witness: the partition facts at the spec's example run. -/
theorem c6_cleanup_partition_witness :
    CleanupPartitionOK (fun _ _ => true) [10, 9, 8, 7, 6] 10 2 3 :=
  (c6_cleanup_partition (fun _ _ => true) [10, 9, 8, 7, 6] 10 2 3 (by decide)).1

/-- C7: Each cleanup candidate is attempted at most `maxAttempts`
times; a candidate whose deletion succeeds on some attempt within the
budget ends in the deleted set, and one that fails every attempt in
the budget ends in the failed set (the attempt count never exceeds the
budget, so it is not retried further in the run); concretely, a
candidate failing attempts 1 and 2 and succeeding on attempt 3 under a
budget of 3 is deleted, and one failing all attempts is failed. -/
theorem c7_cleanup_retry (del : Nat → Nat → Bool) (versionsDesc : List Nat)
    (current keepPrev maxAttempts v : Nat)
    (hv : v ∈ (cleanupPartition versionsDesc current keepPrev).2) :
    attemptsMade (del v) maxAttempts ≤ maxAttempts ∧
    ((∃ k, 1 ≤ k ∧ k ≤ maxAttempts ∧ del v k = true) →
      v ∈ (cleanup_old_deployments del versionsDesc current keepPrev
            maxAttempts).versions_deleted) ∧
    ((∀ k, 1 ≤ k → k ≤ maxAttempts → del v k = false) →
      v ∈ (cleanup_old_deployments del versionsDesc current keepPrev
            maxAttempts).versions_failed) ∧
    (cleanup_old_deployments (fun _ k => k == 3) [2, 1] 2 0 3).versions_deleted
      = [1] ∧
    (cleanup_old_deployments (fun _ _ => false) [2, 1] 2 0 3).versions_failed
      = [1] := by
  refine ⟨attemptsMade_le _ _, ?_, ?_, by decide, by decide⟩
  · rintro ⟨k, h1, h2, h3⟩
    have hsome : (firstSuccess (del v) 1 maxAttempts).isSome = true :=
      (firstSuccess_isSome_iff (del v) maxAttempts 1).mpr ⟨k, h1, by omega, h3⟩
    exact List.mem_filter.mpr ⟨hv, hsome⟩
  · intro hall
    have hnone : firstSuccess (del v) 1 maxAttempts = none := by
      cases hfs : firstSuccess (del v) 1 maxAttempts with
      | none => rfl
      | some k =>
        have hb := firstSuccess_le (del v) maxAttempts 1 k hfs
        have hsk := firstSuccess_succeeds (del v) maxAttempts 1 k hfs
        have := hall k (by omega) (by omega)
        rw [this] at hsk
        exact Bool.noConfusion hsk
    refine List.mem_filter.mpr ⟨hv, ?_⟩
    rw [hnone]
    rfl

/-- C7 witness: the retry outcomes at the spec's example schedules. -/
theorem c7_cleanup_retry_witness :
    attemptsMade (fun k => k == 3) 3 ≤ 3 ∧
    1 ∈ (cleanup_old_deployments (fun _ k => k == 3) [2, 1] 2 0 3).versions_deleted ∧
    1 ∈ (cleanup_old_deployments (fun _ _ => false) [2, 1] 2 0 3).versions_failed :=
  ⟨(c7_cleanup_retry (fun _ k => k == 3) [2, 1] 2 0 3 1 (by decide)).1,
   (c7_cleanup_retry (fun _ k => k == 3) [2, 1] 2 0 3 1 (by decide)).2.1
     ⟨3, by decide, by decide, by decide⟩,
   (c7_cleanup_retry (fun _ _ => false) [2, 1] 2 0 3 1 (by decide)).2.2.1
     (fun _ _ _ => rfl)⟩

end DeployPipeline
